import Mathlib

/-!
Verification development for the `relayenforce` repository
(`relayenforce.py` and `CiscoDevice.py`): a shallow embedding of the
DHCP-relay reconciliation engine and of the Cisco device-model helpers,
together with proofs about the embedded code.

The embedding follows the Python source line by line.  Python's `re`
patterns are embedded through a small backtracking matcher (`reRun`)
whose choice order mirrors CPython's: leftmost search position wins,
alternation prefers its left branch, greedy quantifiers prefer longer
matches, lazy quantifiers prefer shorter ones.
-/

/-! ## Character classes (Python `re` semantics, ASCII inputs) -/

def isDigitC (c : Char) : Bool := '0' ≤ c && c ≤ '9'

/-- Python `\s` on ASCII text: space, tab, newline, carriage return,
vertical tab, form feed. -/
def isSpaceC (c : Char) : Bool :=
  c == ' ' || c == '\t' || c == '\n' || c == '\r' || c == '\x0b' || c == '\x0c'

def isAlphaC (c : Char) : Bool :=
  ('a' ≤ c && c ≤ 'z') || ('A' ≤ c && c ≤ 'Z')

/-- Python `\w` on ASCII text. -/
def isWordC (c : Char) : Bool := isAlphaC c || isDigitC c || c == '_'

def isAlnumC (c : Char) : Bool := isAlphaC c || isDigitC c

/-! ## Python string helpers -/

/-- `pre` is a prefix of `s` (used for `str.startswith` and substring scan). -/
def isPrefixChars : List Char → List Char → Bool
  | [], _ => true
  | _ :: _, [] => false
  | a :: as, b :: bs => a == b && isPrefixChars as bs

/-- Python `needle in hay` (substring containment). -/
def containsChars : List Char → List Char → Bool
  | hay, needle =>
    if isPrefixChars needle hay then true
    else
      match hay with
      | [] => false
      | _ :: rest => containsChars rest needle

def pyContains (hay needle : String) : Bool :=
  containsChars hay.toList needle.toList

def pyStartsWith (s pre : String) : Bool :=
  isPrefixChars pre.toList s.toList

def pyEndsWith (s suf : String) : Bool :=
  isPrefixChars suf.toList.reverse s.toList.reverse

/-- Python `str.splitlines` for the terminators that occur in CLI text
(`\n`, `\r`, `\r\n`); no trailing empty line after a final terminator. -/
def splitLinesChars : List Char → List Char → List (List Char)
  | [], cur => if cur.isEmpty then [] else [cur.reverse]
  | '\r' :: '\n' :: rest, cur => cur.reverse :: splitLinesChars rest []
  | '\r' :: rest, cur => cur.reverse :: splitLinesChars rest []
  | '\n' :: rest, cur => cur.reverse :: splitLinesChars rest []
  | c :: rest, cur => splitLinesChars rest (c :: cur)

def pySplitLines (s : String) : List String :=
  (splitLinesChars s.toList []).map String.mk

/-- Python `s.split(sep)` for a single-character separator. -/
def splitOnChar (sep : Char) : List Char → List (List Char)
  | [] => [[]]
  | c :: rest =>
    let r := splitOnChar sep rest
    if c == sep then [] :: r
    else
      match r with
      | h :: t => (c :: h) :: t
      | [] => [[c]]

def pySplitComma (s : String) : List String :=
  (splitOnChar ',' s.toList).map String.mk

/-- Python `s.replace(" ", "")` (remove every space character). -/
def pyRemoveSpaces (s : String) : String :=
  String.mk (s.toList.filter (fun c => !(c == ' ')))

/-- Python `s.replace(":", "")` (remove every colon). -/
def pyRemoveColons (s : String) : String :=
  String.mk (s.toList.filter (fun c => !(c == ':')))

/-- Python `s.replace(old, new)`: every non-overlapping occurrence,
scanned left to right.  Fuel-bounded; `s.length` steps always suffice
for a non-empty `old`. -/
def replaceCharsF : Nat → List Char → List Char → List Char → List Char
  | 0, s, _, _ => s
  | _ + 1, [], _, _ => []
  | fuel + 1, c :: rest, old, new =>
    if isPrefixChars old (c :: rest) && !old.isEmpty then
      new ++ replaceCharsF fuel ((c :: rest).drop old.length) old new
    else
      c :: replaceCharsF fuel rest old new

def pyReplace (s old new : String) : String :=
  String.mk (replaceCharsF s.length s.toList old.toList new.toList)

def pyLower (s : String) : String :=
  String.mk (s.toList.map Char.toLower)

/-- Python `int(...)` on a decimal digit string. -/
def strToNat (s : String) : Nat :=
  s.toList.foldl (fun acc c => acc * 10 + (c.toNat - 48)) 0

/-- Python `f"...{x}..."` rendering of a possibly-`None` string value. -/
def pyStrOpt : Option String → String
  | some s => s
  | none => "None"

/-! ## A backtracking matcher for the `re` patterns used by the source

The abstract syntax covers exactly the constructs that occur in the
repository's patterns: character classes, sequencing, alternation,
greedy and lazy star, greedy option, capture groups, lookahead
`(?=...)`, single-character lookbehind `(?<=c)`, word boundary `\b`
and end anchor `$`. -/

inductive RE where
  | eps : RE
  | cls (p : Char → Bool) : RE
  | seq (a b : RE) : RE
  | alt (a b : RE) : RE
  | starG (a : RE) : RE
  | starL (a : RE) : RE
  | optG (a : RE) : RE
  | grp (n : Nat) (a : RE) : RE
  | look (a : RE) : RE
  | prevIs (p : Option Char → Bool) : RE
  | wordB : RE
  | lineEnd : RE

/-- Captured groups: group number paired with the captured characters. -/
def Caps : Type := List (Nat × List Char)

def wordAt : Option Char → Bool
  | some c => isWordC c
  | none => false

/-- Backtracking matcher in continuation-passing style.  `prev` is the
character just before the current position (for lookbehind and `\b`).
The continuation receives the updated `prev`, the remaining input and
the captures.  Choice order matches CPython's backtracking engine. -/
def reRun : Nat → RE → Option Char → List Char → Caps →
    (Option Char → List Char → Caps → Option Caps) → Option Caps
  | 0, _, _, _, _, _ => none
  | _ + 1, RE.eps, prev, s, caps, k => k prev s caps
  | _ + 1, RE.cls p, _, s, caps, k =>
    match s with
    | [] => none
    | c :: rest => if p c then k (some c) rest caps else none
  | fuel + 1, RE.seq a b, prev, s, caps, k =>
    reRun fuel a prev s caps (fun p2 s2 c2 => reRun fuel b p2 s2 c2 k)
  | fuel + 1, RE.alt a b, prev, s, caps, k =>
    match reRun fuel a prev s caps k with
    | some r => some r
    | none => reRun fuel b prev s caps k
  | fuel + 1, RE.starG a, prev, s, caps, k =>
    match reRun fuel a prev s caps (fun p2 s2 c2 =>
        if s2.length < s.length then reRun fuel (RE.starG a) p2 s2 c2 k
        else k p2 s2 c2) with
    | some r => some r
    | none => k prev s caps
  | fuel + 1, RE.starL a, prev, s, caps, k =>
    match k prev s caps with
    | some r => some r
    | none =>
      reRun fuel a prev s caps (fun p2 s2 c2 =>
        if s2.length < s.length then reRun fuel (RE.starL a) p2 s2 c2 k
        else none)
  | fuel + 1, RE.optG a, prev, s, caps, k =>
    match reRun fuel a prev s caps k with
    | some r => some r
    | none => k prev s caps
  | fuel + 1, RE.grp n a, prev, s, caps, k =>
    reRun fuel a prev s caps (fun p2 s2 c2 =>
      k p2 s2 ((n, s.take (s.length - s2.length)) :: c2))
  | fuel + 1, RE.look a, prev, s, caps, k =>
    match reRun fuel a prev s caps (fun _ _ c2 => some c2) with
    | some c2 => k prev s c2
    | none => none
  | _ + 1, RE.prevIs p, prev, s, caps, k =>
    if p prev then k prev s caps else none
  | _ + 1, RE.wordB, prev, s, caps, k =>
    if wordAt prev != wordAt s.head? then k prev s caps else none
  | _ + 1, RE.lineEnd, prev, s, caps, k =>
    match s with
    | [] => k prev s caps
    | [c] => if c == '\n' then k prev s caps else none
    | _ => none

/-- `re.search`: try each start position from the left; at each
position run the pattern with the backtracking matcher. -/
def reSearchAux (fuel : Nat) (r : RE) : Option Char → List Char → Option Caps
  | prev, [] => reRun fuel r prev [] [] (fun _ _ c => some c)
  | prev, c :: rest =>
    match reRun fuel r prev (c :: rest) [] (fun _ _ c2 => some c2) with
    | some caps => some caps
    | none => reSearchAux fuel r (some c) rest

def reFuel (s : String) : Nat := s.length * 2 + 400

def reSearchCaps (r : RE) (s : String) : Option Caps :=
  reSearchAux (reFuel s) r none s.toList

/-- `re.match`: anchored at the start of the string. -/
def reMatchCaps (r : RE) (s : String) : Option Caps :=
  reRun (reFuel s) r none s.toList [] (fun _ _ c => some c)

/-- `match.group(n)`: `none` when the group did not participate. -/
def reGrp (caps : Caps) (n : Nat) : Option String :=
  (List.lookup n caps).map String.mk

def reSearchGrp (r : RE) (s : String) (n : Nat) : Option String :=
  (reSearchCaps r s).bind (fun caps => reGrp caps n)

def reMatchGrp (r : RE) (s : String) (n : Nat) : Option String :=
  (reMatchCaps r s).bind (fun caps => reGrp caps n)

/-! ### Pattern building helpers -/

def litc (c : Char) : RE := RE.cls (fun d => d == c)

def reCat (l : List RE) : RE := l.foldr RE.seq RE.eps

def lit (s : String) : RE := reCat (s.toList.map litc)

/-- `p+` (greedy). -/
def plusC (p : Char → Bool) : RE := RE.seq (RE.cls p) (RE.starG (RE.cls p))

/-- `(?:\s+)?` as it appears in the file-system patterns. -/
def optWs : RE := RE.optG (plusC isSpaceC)

/-- `.` (any character except newline; DOTALL is never set). -/
def dotC : RE := RE.cls (fun c => !(c == '\n'))

/-! ## The source's regular expressions

Each definition transliterates one pattern from the Python source; the
original pattern is quoted in the comment. -/

/-- `CiscoDevice.__init__` (ASA): `(\d)-?(\d+)-?(\d)-(\d+)?`. -/
def asaVerRE : RE := reCat [
  RE.grp 1 (RE.cls isDigitC),
  RE.optG (litc '-'),
  RE.grp 2 (plusC isDigitC),
  RE.optG (litc '-'),
  RE.grp 3 (RE.cls isDigitC),
  litc '-',
  RE.optG (RE.grp 4 (plusC isDigitC))]

/-- `get_system_fs_info`: default-filesystem row,
`(?:\*)(?:\s+)?(\-|\d+)(?:\s+)?(\-|\d+)(?:\s+)?(\w+)(?:\s+)?(\w+)(?:\s+)?([^#\s]+)(?:\s+)?(.*)`. -/
def fsDefaultRE : RE := reCat [
  litc '*',
  optWs,
  RE.grp 1 (RE.alt (litc '-') (plusC isDigitC)),
  optWs,
  RE.grp 2 (RE.alt (litc '-') (plusC isDigitC)),
  optWs,
  RE.grp 3 (plusC isWordC),
  optWs,
  RE.grp 4 (plusC isWordC),
  optWs,
  RE.grp 5 (plusC (fun c => !(c == '#') && !(isSpaceC c))),
  optWs,
  RE.grp 6 (RE.starG dotC)]

/-- `get_system_fs_info`: per-line row,
`(?:\*)?(?:\s+)?(\-|\d+)(?:\s+)?(\-|\d+)(?:\s+)?(\w+)(?:\s+)?(\w+)(?:\s+)?([^#\s]+)(.*)`. -/
def fsLineRE : RE := reCat [
  RE.optG (litc '*'),
  optWs,
  RE.grp 1 (RE.alt (litc '-') (plusC isDigitC)),
  optWs,
  RE.grp 2 (RE.alt (litc '-') (plusC isDigitC)),
  optWs,
  RE.grp 3 (plusC isWordC),
  optWs,
  RE.grp 4 (plusC isWordC),
  optWs,
  RE.grp 5 (plusC (fun c => !(c == '#') && !(isSpaceC c))),
  RE.grp 6 (RE.starG dotC)]

/-- `get_system_fs_info` (NX-OS): `(\d+)\s\bbytes free\b`. -/
def nxFreeRE : RE := reCat [
  RE.grp 1 (plusC isDigitC),
  RE.cls isSpaceC,
  RE.wordB,
  lit "bytes free",
  RE.wordB]

/-- `get_system_image_info` (NX-OS ACI): `(?<=/)(.*?)(?=/)`. -/
def nxAciFsRE : RE := reCat [
  RE.prevIs (fun o => o == some '/'),
  RE.grp 1 (RE.starL dotC),
  RE.look (litc '/')]

/-- `get_system_image_info` (NX-OS ACI): `kickstart.*/(?<=/)(.*)`. -/
def nxAciKickRE : RE := reCat [
  lit "kickstart",
  RE.starG dotC,
  litc '/',
  RE.prevIs (fun o => o == some '/'),
  RE.grp 1 (RE.starG dotC)]

/-- `get_system_image_info` (NX-OS): `(?<=\:)(.*?)(?=\:)`. -/
def nxFsRE : RE := reCat [
  RE.prevIs (fun o => o == some ':'),
  RE.grp 1 (RE.starL dotC),
  RE.look (litc ':')]

/-- `get_system_image_info` (NX-OS): `(?:system|NXOS).*(?<=/)/+(.*)`. -/
def nxImgRE : RE := reCat [
  RE.alt (lit "system") (lit "NXOS"),
  RE.starG dotC,
  RE.prevIs (fun o => o == some '/'),
  plusC (fun c => c == '/'),
  RE.grp 1 (RE.starG dotC)]

/-- `get_system_image_info` (NX-OS): `kickstart.*/(?<=/)/+(.*)`. -/
def nxKickRE : RE := reCat [
  lit "kickstart",
  RE.starG dotC,
  litc '/',
  RE.prevIs (fun o => o == some '/'),
  plusC (fun c => c == '/'),
  RE.grp 1 (RE.starG dotC)]

/-- `get_system_image_info` (IOS/IOS-XE/ASA): `(?<=\")(.*?)(?=\:)`. -/
def iosFsRE : RE := reCat [
  RE.prevIs (fun o => o == some '"'),
  RE.grp 1 (RE.starL dotC),
  RE.look (litc ':')]

/-- `get_system_image_info` (IOS/IOS-XE/ASA): `(?<=\:)/?(.*?)(?=\\)`. -/
def iosImgRE : RE := reCat [
  RE.prevIs (fun o => o == some ':'),
  RE.optG (litc '/'),
  RE.grp 1 (RE.starL dotC),
  RE.look (litc '\\')]

/-- `get_system_image_info` (INSTALL): `#\s+pkginfo:\s+Build:\s+(\S+)`. -/
def bldRE : RE := reCat [
  litc '#',
  plusC isSpaceC,
  lit "pkginfo:",
  plusC isSpaceC,
  lit "Build:",
  plusC isSpaceC,
  RE.grp 1 (plusC (fun c => !(isSpaceC c)))]

/-- `get_system_image_info` (INSTALL fallback):
`(?<=)\.(\d+\.\d+\.\d+[a-zA-Z]?)\..*` (the empty lookbehind is a no-op). -/
def rpVerRE : RE := reCat [
  litc '.',
  RE.grp 1 (reCat [
    plusC isDigitC, litc '.', plusC isDigitC, litc '.', plusC isDigitC,
    RE.optG (RE.cls isAlphaC)]),
  litc '.',
  RE.starG dotC]

/-- `get_system_image_info` (INSTALL): `#\s+pkginfo:\s+Platform:\s+([a-zA-Z0-9_-]+)`. -/
def platRE : RE := reCat [
  litc '#',
  plusC isSpaceC,
  lit "pkginfo:",
  plusC isSpaceC,
  lit "Platform:",
  plusC isSpaceC,
  RE.grp 1 (plusC (fun c => isAlnumC c || c == '_' || c == '-'))]

/-- `get_system_image_info` (INSTALL fallback): `(?<=\s)([a-zA-Z0-9_]+)(?=-)`. -/
def rpPlatRE : RE := reCat [
  RE.prevIs (fun o => match o with | some c => isSpaceC c | none => false),
  RE.grp 1 (plusC isWordC),
  RE.look (litc '-')]

/-- `get_system_image_info` (NX-OS ACI): `(aci-[a-zA-Z0-9]+)(?:-|_|\.).*$`. -/
def aciPlatRE : RE := reCat [
  RE.grp 1 (reCat [lit "aci-", plusC isAlnumC]),
  RE.alt (litc '-') (RE.alt (litc '_') (litc '.')),
  RE.starG dotC,
  RE.lineEnd]

/-- `get_system_image_info` (BUNDLE): `([a-zA-Z0-9]+(_lite|_iosxe)?)(?:-|_|\.).*`. -/
def bundlePlatRE : RE := reCat [
  RE.grp 1 (reCat [
    plusC isAlnumC,
    RE.optG (RE.grp 2 (RE.alt (lit "_lite") (lit "_iosxe")))]),
  RE.alt (litc '-') (RE.alt (litc '_') (litc '.')),
  RE.starG dotC]

/-- `get_system_image_info` (SD-WAN, used with `re.match`):
`operating.*(?<=\:)\s+(.*)`. -/
def operRE : RE := reCat [
  lit "operating",
  RE.starG dotC,
  RE.prevIs (fun o => o == some ':'),
  plusC isSpaceC,
  RE.grp 1 (RE.starG dotC)]

/-- `get_relay_interfaces` (ASA): `dhcprelay\s+server\s+(\S+)`. -/
def asaRelayRE : RE := reCat [
  lit "dhcprelay",
  plusC isSpaceC,
  lit "server",
  plusC isSpaceC,
  RE.grp 1 (plusC (fun c => !(isSpaceC c)))]

/-- `get_relay_interfaces` (NX-OS): `ip\s+dhcp\s+relay\s+address\s+(\S+)`. -/
def nxRelayRE : RE := reCat [
  lit "ip",
  plusC isSpaceC,
  lit "dhcp",
  plusC isSpaceC,
  lit "relay",
  plusC isSpaceC,
  lit "address",
  plusC isSpaceC,
  RE.grp 1 (plusC (fun c => !(isSpaceC c)))]

/-- `get_relay_interfaces` (IOS/IOS-XE): `ip\s+helper-address\s+(\S+)`. -/
def iosRelayRE : RE := reCat [
  lit "ip",
  plusC isSpaceC,
  lit "helper-address",
  plusC isSpaceC,
  RE.grp 1 (plusC (fun c => !(isSpaceC c)))]

/-! ## `relayenforce.py` — the reconciliation engine

`TargetDevice` (relayenforce.py:87) and the reconciliation part of
`main` (relayenforce.py:216-333).  `main` is modelled from the point
where the device model (`relay_intfs`) already exists; its observable
effects are the number of List Store lookups (`get_list_value` calls),
the exact sequence of commands sent over the Command Channel
(`send_command` calls), and the process exit code. -/

namespace TargetDevice

/-- One entry of `TargetDevice.relay_intfs`: interface name and the
ordered list of configured relay addresses found on it. -/
structure RelayIntf where
  name : String
  relays : List String
deriving DecidableEq

/-- relayenforce.py:119-123 — `enter_global_config` sends exactly
`configure terminal`. -/
def enterGlobalConfigSends : List String := ["configure terminal"]

/-- relayenforce.py:126-132 — `exit_global_config` sends `end`, then
the copy command when `commit_config` is `True`. -/
def exitGlobalConfigSends (commitConfig : Bool) : List String :=
  ["end"] ++
    (if commitConfig then ["copy running-config startup-config\r\r"] else [])

/-- relayenforce.py:294-299 — the per-OS relay command keyword. -/
def relayCmdBase (osType : String) : String :=
  if osType = "ASA" then "dhcprelay server "
  else if osType = "NXOS" then "ip dhcp relay address "
  else "ip helper-address "

/-- relayenforce.py:278-281 — the removal candidates: every configured
relay (in order, duplicates kept) that is not in the authorized list. -/
def badRelays (relays authRelays : List String) : List String :=
  relays.filter (fun relay => decide (relay ∉ authRelays))

/-- relayenforce.py:284-324 — the commands sent while working in one
interface: the interface sub-context entry, one removal per bad relay,
then one addition per authorized relay; each is only printed (not sent)
when `dry_run == "on"`. -/
def intfSends (osType : String) (intf : RelayIntf) (authRelays : List String)
    (dryRun : String) : List String :=
  let bad := badRelays intf.relays authRelays
  (if dryRun = "on" then [] else ["interface " ++ intf.name])
  ++ (if bad.length > 0 then
        (bad.map (fun badrelay =>
          if dryRun = "on" then []
          else ["no " ++ relayCmdBase osType ++ badrelay])).flatten
      else [])
  ++ (authRelays.map (fun goodrelay =>
        if dryRun = "on" then []
        else [relayCmdBase osType ++ " " ++ goodrelay])).flatten

/-- Observable outcome of a `main` run. -/
structure MainRes where
  listLookups : Nat
  sent : List String
  exitCode : Nat
deriving DecidableEq

/-- relayenforce.py:216-333 — `main`, given the device model's
`relay_intfs`, the user-supplied list key, the List Store's response
for that key (`"NOTFOUND"` when the key does not resolve), and the
`dry_run` switch. -/
def mainRun (osType : String) (relayIntfs : List RelayIntf)
    (relayListKey : String) (listVal : String) (dryRun : String) : MainRes :=
  if relayIntfs.length = 0 then
    -- relayenforce.py:228-232 — success, exit(0), nothing looked up or sent
    { listLookups := 0, sent := [], exitCode := 0 }
  else if relayListKey = "Row ID Key from DHCP Relay List" then
    -- relayenforce.py:241-244 — placeholder default key is a fatal error
    { listLookups := 0, sent := [], exitCode := 1 }
  else if listVal = "NOTFOUND" then
    -- relayenforce.py:255-258 — unresolved key is a fatal error
    { listLookups := 1, sent := [], exitCode := 1 }
  else
    let authRelays := pySplitComma listVal
    let sent :=
      (if dryRun = "off" then enterGlobalConfigSends else [])
      ++ (relayIntfs.map (fun intf =>
            intfSends osType intf authRelays dryRun)).flatten
      ++ (if dryRun = "off" then exitGlobalConfigSends true else [])
    { listLookups := 1, sent := sent, exitCode := 0 }

end TargetDevice

/-! ## `CiscoDevice.py` — the device model -/

namespace CiscoDevice

/-- The Command Channel: the response text for the n-th
`send_command` of a method call, or `none` when that exchange itself
raises (connection error etc.). -/
structure Chan where
  resp : Nat → Option String

/-- The mutable attributes of `CiscoDevice` used by the embedded
methods, with the `__init__` defaults (CiscoDevice.py:42-70). -/
structure Dev where
  os : String := ""
  in_config_mode : Bool := false
  active_intfs : List String := []
  relay_intfs : List (Nat × String × List String) := []
  current_system_image : Option String := none
  current_system_image_fs : Option String := none
  system_fs : Option String := none
  system_fs_info : List (Nat × String × String) := []
  platform : Option String := none
  asa_multi_context : Bool := false
  asa_admin_context : Bool := false
  asa_admin_context_name : Option String := none
  iosxe_boot_mode : Option String := none
  iosxe_build : Option String := none
  iosxe_sdwan : Option String := none
  nxos_kickstart_image : Option String := none
  nxos_aci_mode : Bool := false

/-- CiscoDevice.py:74-228 — ordered OS-family classification from the
system description (`raise ValueError("Unable to determine OS")` when
nothing matches). -/
def classifyOS (sysDescr : String) : Except String String :=
  if pyContains sysDescr "Adaptive Security" = true then Except.ok "ASA"
  else if pyContains sysDescr "NX-OS" = true then Except.ok "NX-OS"
  else if (pyContains sysDescr "IOSXE" = true
      ∨ pyContains sysDescr "IOS-XE" = true
      ∨ pyContains sysDescr "IOS XE" = true
      ∨ pyContains sysDescr "LINUX_IOSD" = true
      ∨ pyContains sysDescr "CAT3K_" = true) then Except.ok "IOS-XE"
  else if pyContains sysDescr "IOS" = true then Except.ok "IOS"
  else Except.error "Unable to determine OS"

/-- The ASA `verinfo` record (CiscoDevice.py:91-96); every field is
best-effort optional. -/
structure AsaVer where
  maj : Option Nat
  min : Option Nat
  maint : Option Nat
  rebld : Option Nat
deriving DecidableEq

/-- CiscoDevice.py:97-105 — the ASA version extraction:
`re.search(r'(\d)-?(\d+)-?(\d)-(\d+)?', version)`; a failed search
leaves every field unset, `rebld` is `None` when group 4 is absent. -/
def asaParseVersion (version : String) : AsaVer :=
  match reSearchCaps asaVerRE version with
  | none => { maj := none, min := none, maint := none, rebld := none }
  | some caps =>
    { maj := (reGrp caps 1).map strToNat,
      min := (reGrp caps 2).map strToNat,
      maint := (reGrp caps 3).map strToNat,
      rebld := (reGrp caps 4).map strToNat }

/-- CiscoDevice.py:654-658 — `enter_global_config`: always sends
`enable` and `configure terminal`, then records the mode flag. -/
def enterGlobalConfig (dev : Dev) : Dev × List String :=
  ({ dev with in_config_mode := true }, ["enable", "configure terminal"])

/-- CiscoDevice.py:661-678 — `exit_global_config`: always sends `end`,
clears the mode flag, then sends the per-family save command when
`commit_config` is `True`. -/
def exitGlobalConfig (dev : Dev) (commitConfig : Bool) : Dev × List String :=
  ({ dev with in_config_mode := false },
   ["end"] ++
     (if commitConfig then
        (if dev.os = "ASA" then ["write memory"]
         else ["copy running-config startup-config\r\r\r"])
      else []))

/-- CiscoDevice.py:270-272 — the context restore command
(`f"changeto context {self.asa_admin_context_name}"`). -/
def restoreCmd (dev : Dev) : String :=
  "changeto context " ++ pyStrOpt dev.asa_admin_context_name

/-- CiscoDevice.py:261-264 — the image probe command. -/
def probeCmdGii (dev : Dev) : String :=
  if dev.os = "NX-OS" ∧ dev.nxos_aci_mode = true then
    "show version | grep image"
  else "show version | include image"

/-- CiscoDevice.py:277-300 — NX-OS image/filesystem extraction from the
space-stripped probe output (`.group(1)` on a failed search raises). -/
def giiNxExtract (dev : Dev) (raw : String) : Except String Dev :=
  if dev.nxos_aci_mode = true then
    match reSearchGrp nxAciFsRE raw 1 with
    | none => Except.error "AttributeError"
    | some fs =>
      let dev1 := { dev with current_system_image_fs := some fs }
      if pyContains raw "kickstart" = true then
        match reSearchGrp nxAciKickRE raw 1 with
        | none => Except.error "AttributeError"
        | some k => Except.ok { dev1 with nxos_kickstart_image := some k }
      else Except.ok dev1
  else
    match reSearchGrp nxFsRE raw 1 with
    | none => Except.error "AttributeError"
    | some fs =>
      match reSearchGrp nxImgRE raw 1 with
      | none => Except.error "AttributeError"
      | some img =>
        let dev1 := { dev with current_system_image_fs := some fs,
                               current_system_image := some img }
        if pyContains raw "kickstart" = true then
          match reSearchGrp nxKickRE raw 1 with
          | none => Except.error "AttributeError"
          | some k => Except.ok { dev1 with nxos_kickstart_image := some k }
        else Except.ok dev1

/-- CiscoDevice.py:352-400 — the platform extraction phase.  `bldplat`
and `rp` are the local variables of the INSTALL branch; `none` models
a Python variable that was never bound (using it raises `NameError`). -/
def giiPlatform (dev : Dev) (bldplat rp : Option String) : Except String Dev :=
  if dev.os = "ASA" then Except.ok { dev with platform := some "asa" }
  else if dev.os = "NX-OS" ∧ dev.nxos_aci_mode = true then
    match dev.current_system_image with
    | none => Except.error "TypeError"
    | some img =>
      match reSearchGrp aciPlatRE img 1 with
      | none => Except.error "AttributeError"
      | some p => Except.ok { dev with platform := some p }
  else
    if dev.iosxe_boot_mode = some "INSTALL" then
      match bldplat with
      | none => Except.error "NameError"
      | some bp =>
        match reSearchGrp platRE bp 1 with
        | some p =>
          let pl := pyLower p
          let pl2 := if pl = "ng3k" then "cat3k_caa" else pl
          Except.ok { dev with platform := some pl2 }
        | none =>
          match rp with
          | none => Except.error "NameError"
          | some rps =>
            match reSearchGrp rpPlatRE rps 1 with
            | some p => Except.ok { dev with platform := some p }
            | none => Except.ok dev
    else
      match dev.current_system_image with
      | none => Except.error "TypeError"
      | some img =>
        match reSearchGrp bundlePlatRE img 1 with
        | none => Except.error "AttributeError"
        | some p =>
          let p1 :=
            if pyStartsWith p "c8300" = true ∨ pyStartsWith p "c8500" = true
            then pyReplace (pyReplace p "c8300" "c8000") "c8500" "c8000"
            else p
          Except.ok { dev with platform := some p1 }

/-- The fixed SD-WAN-capable platform-code families
(CiscoDevice.py:409-412). -/
def sdwanPlats : List String :=
  ["ir1101", "isr1", "isr4", "isrv", "asr1", "c1000v", "c1100",
   "c8000", "c8200", "c8300", "c8500"]

/-- CiscoDevice.py:402-428 — the SD-WAN detection phase; may send one
more command.  Returns the result together with the commands sent. -/
def giiSdwan (dev : Dev) (ch : Chan) (i : Nat) : Except String Dev × List String :=
  if dev.os = "IOS-XE" then
    match dev.platform with
    | none => (Except.error "TypeError", [])
    | some plat =>
      match dev.current_system_image with
      | none => (Except.error "AttributeError", [])
      | some img =>
        let dev1 :=
          if pyStartsWith img (plat ++ "-ucmk9.") = true then
            { dev with iosxe_sdwan := some "unknown" }
          else dev
        if sdwanPlats.any (fun p => pyStartsWith plat p) = true then
          let cmd := "show version | include operating"
          match ch.resp i with
          | none => (Except.error "channel error", [cmd])
          | some raw =>
            if raw = "" then (Except.ok dev1, [cmd])
            else
              match reMatchGrp operRE raw 1 with
              | none => (Except.ok dev1, [cmd])
              | some m =>
                let dev2 :=
                  if pyContains m "Autonomous" = true then
                    { dev1 with iosxe_sdwan := some "autonomous" }
                  else dev1
                let dev3 :=
                  if pyContains m "Controller-Managed" = true then
                    { dev2 with iosxe_sdwan := some "managed" }
                  else dev2
                (Except.ok dev3, [cmd])
        else (Except.ok dev1, [])
  else (Except.ok dev, [])

/-- Platform and SD-WAN phases, with the commands emitted so far. -/
def giiAfterBoot (dev : Dev) (bldplat rp : Option String) (ch : Chan)
    (i : Nat) (em : List String) : Except String Dev × List String :=
  match giiPlatform dev bldplat rp with
  | Except.error e => (Except.error e, em)
  | Except.ok dev1 =>
    let r := giiSdwan dev1 ch i
    (r.1, em ++ r.2)

/-- CiscoDevice.py:274-428 — everything in `get_system_image_info`
after the context restore: space stripping, per-family image and
filesystem extraction (including the INSTALL-mode metadata fetches,
which send further commands), platform extraction and SD-WAN probing.
`i` is the index of the next Command Channel exchange. -/
def giiParse (dev : Dev) (raw0 : String) (ch : Chan) (i : Nat) :
    Except String Dev × List String :=
  let raw := pyRemoveSpaces raw0
  if dev.os = "NX-OS" then
    match giiNxExtract dev raw with
    | Except.error e => (Except.error e, [])
    | Except.ok dev1 => giiAfterBoot dev1 none none ch i []
  else
    match reSearchGrp iosFsRE raw 1 with
    | none => (Except.error "AttributeError", [])
    | some fs =>
      match reSearchGrp iosImgRE raw 1 with
      | none => (Except.error "AttributeError", [])
      | some img =>
        let dev1 := { dev with current_system_image_fs := some fs,
                               current_system_image := some img }
        if pyEndsWith img ".conf" = true then
          let dev2 := { dev1 with iosxe_boot_mode := some "INSTALL" }
          let cmd1 := "more " ++ fs ++ ":/" ++ img ++
            " | include Platform:|Build:"
          match ch.resp i with
          | none => (Except.error "channel error", [cmd1])
          | some bldplat =>
            match reSearchGrp bldRE bldplat 1 with
            | some b =>
              giiAfterBoot { dev2 with iosxe_build := some b }
                (some bldplat) none ch (i + 1) [cmd1]
            | none =>
              let cmd2 := "more flash:/packages.conf | include rp_base.*\\.pkg"
              match ch.resp (i + 1) with
              | none => (Except.error "channel error", [cmd1, cmd2])
              | some rps =>
                let dev3 :=
                  match reSearchGrp rpVerRE rps 1 with
                  | some b => { dev2 with iosxe_build := some b }
                  | none => dev2
                if dev3.iosxe_build = none then
                  -- CiscoDevice.py:347-348 — `raise TypeError`
                  (Except.error "TypeError", [cmd1, cmd2])
                else
                  giiAfterBoot dev3 (some bldplat) (some rps) ch (i + 2)
                    [cmd1, cmd2]
        else
          giiAfterBoot { dev1 with iosxe_boot_mode := some "BUNDLE" }
            none none ch i []

/-- CiscoDevice.py:231-428 — `get_system_image_info`: the scoped ASA
context switch (system context for the probe, restore right after),
then the parsing phases.  Returns the result and the exact command
sequence sent. -/
def getSystemImageInfo (dev : Dev) (ch : Chan) : Except String Dev × List String :=
  if dev.os = "ASA" ∧ dev.asa_multi_context = true then
    if dev.asa_admin_context = true then
      match ch.resp 0 with
      | none => (Except.error "channel error", ["changeto system"])
      | some _ =>
        match ch.resp 1 with
        | none => (Except.error "channel error",
                   ["changeto system", probeCmdGii dev])
        | some raw =>
          -- `asa_admin_context` holds on this path, so the restore is sent
          match ch.resp 2 with
          | none => (Except.error "channel error",
                     ["changeto system", probeCmdGii dev, restoreCmd dev])
          | some _ =>
            let r := giiParse dev raw ch 3
            (r.1, ["changeto system", probeCmdGii dev, restoreCmd dev] ++ r.2)
    else
      -- CiscoDevice.py:257-259
      (Except.error "Cannot be called to a non-admin ASA context.", [])
  else
    match ch.resp 0 with
    | none => (Except.error "channel error", [probeCmdGii dev])
    | some raw =>
      if dev.asa_admin_context = true then
        match ch.resp 1 with
        | none => (Except.error "channel error",
                   [probeCmdGii dev, restoreCmd dev])
        | some _ =>
          let r := giiParse dev raw ch 2
          (r.1, [probeCmdGii dev, restoreCmd dev] ++ r.2)
      else
        let r := giiParse dev raw ch 1
        (r.1, [probeCmdGii dev] ++ r.2)

/-- CiscoDevice.py:485-518 — the pure parsing part of
`get_system_fs_info` on the `show file system` output: capture the
asterisk-marked default row (group 5, colons stripped), then walk the
lines with `fs_index` starting at 0 and pre-incremented before each
store, keeping rows whose free column is numeric and whose prefix
contains the default-filesystem name or the boot-image filesystem
name. -/
def fsParse (dev : Dev) (imgFs raw : String) : Except String Dev :=
  match reSearchGrp fsDefaultRE raw 5 with
  | none => Except.error "AttributeError"
  | some g5 =>
    let sysFs := pyRemoveColons g5
    let step := fun (st : Nat × List (Nat × String × String)) (line : String) =>
      match reSearchCaps fsLineRE line with
      | none => st
      | some caps =>
        let g2 := (reGrp caps 2).getD ""
        let g5l := (reGrp caps 5).getD ""
        if g2 ≠ "-" ∧
            (pyContains g5l sysFs = true ∨ pyContains g5l imgFs = true) then
          (st.1 + 1, st.2 ++ [(st.1 + 1, pyRemoveColons g5l, g2)])
        else st
    let r := (pySplitLines raw).foldl step (0, dev.system_fs_info)
    Except.ok { dev with system_fs := some sysFs, system_fs_info := r.2 }

/-- CiscoDevice.py:431-518 — `get_system_fs_info`: the NX-OS
per-filesystem probe, or the `show file system` listing (with the
scoped ASA context switch around it) followed by `fsParse`.  Returns
the result and the exact command sequence sent. -/
def getSystemFsInfo (dev : Dev) (ch : Chan) : Except String Dev × List String :=
  match dev.current_system_image_fs with
  | none => (Except.error "TypeError: current_system_image_fs is not initialized", [])
  | some imgFs =>
    if imgFs = "" then
      (Except.error "TypeError: current_system_image_fs is not initialized", [])
    else if dev.os = "NX-OS" then
      let cmd := "dir " ++ imgFs ++ ": | include free"
      match ch.resp 0 with
      | none => (Except.error "channel error", [cmd])
      | some raw =>
        match reSearchGrp nxFreeRE raw 1 with
        | none => (Except.error "AttributeError", [cmd])
        | some free =>
          (Except.ok { dev with system_fs := some imgFs,
                                system_fs_info := [(0, imgFs, free)] }, [cmd])
    else if dev.asa_multi_context = true ∧ dev.asa_admin_context = true then
      match ch.resp 0 with
      | none => (Except.error "channel error", ["changeto system"])
      | some _ =>
        match ch.resp 1 with
        | none => (Except.error "channel error",
                   ["changeto system", "show file system"])
        | some raw =>
          -- `asa_admin_context` holds on this path, so the restore is sent
          match ch.resp 2 with
          | none => (Except.error "channel error",
                     ["changeto system", "show file system", restoreCmd dev])
          | some _ =>
            (fsParse dev imgFs raw,
             ["changeto system", "show file system", restoreCmd dev])
    else
      match ch.resp 0 with
      | none => (Except.error "channel error", ["show file system"])
      | some raw =>
        if dev.asa_admin_context = true then
          match ch.resp 1 with
          | none => (Except.error "channel error",
                     ["show file system", restoreCmd dev])
          | some _ => (fsParse dev imgFs raw, ["show file system", restoreCmd dev])
        else
          (fsParse dev imgFs raw, ["show file system"])

/-- CiscoDevice.py:628-635 — the per-OS relay pattern of
`get_relay_interfaces` (`raise ValueError("Unknown OS type")` otherwise). -/
def relayRE (os : String) : Option RE :=
  if os = "ASA" then some asaRelayRE
  else if os = "NX-OS" then some nxRelayRE
  else if os = "IOS" ∨ os = "IOS-XE" then some iosRelayRE
  else none

/-- CiscoDevice.py:619-651 — the per-interface loop of
`get_relay_interfaces`: fetch the interface configuration, scan each
line for the relay pattern, and record the interface (keyed by the
current dictionary length) only when at least one relay was found. -/
def griLoop (dev : Dev) (ch : Chan) : List String → Nat →
    List (Nat × String × List String) → List String →
    Except String (List (Nat × String × List String)) × List String
  | [], _, acc, em => (Except.ok acc, em)
  | intf :: rest, i, acc, em =>
    let cmd := "show running-config interface " ++ intf
    match ch.resp i with
    | none => (Except.error "channel error", em ++ [cmd])
    | some raw =>
      match relayRE dev.os with
      | none => (Except.error "ValueError: Unknown OS type", em ++ [cmd])
      | some hre =>
        let relaylist := (pySplitLines raw).filterMap
          (fun line => reSearchGrp hre line 1)
        let acc2 :=
          if relaylist.length > 0 then acc ++ [(acc.length, intf, relaylist)]
          else acc
        griLoop dev ch rest (i + 1) acc2 (em ++ [cmd])

/-- CiscoDevice.py:592-651 — `get_relay_interfaces`: raises
`TypeError("active_intfs is not intialized")` when the active-interface
list is empty (Python `if not self.active_intfs`), otherwise runs the
per-interface loop.  Returns the result and the commands sents. -/
def getRelayInterfaces (dev : Dev) (ch : Chan) : Except String Dev × List String :=
  if dev.active_intfs = [] then
    (Except.error "TypeError: active_intfs is not intialized", [])
  else
    let r := griLoop dev ch dev.active_intfs 0 dev.relay_intfs []
    match r.1 with
    | Except.error e => (Except.error e, r.2)
    | Except.ok acc => (Except.ok { dev with relay_intfs := acc }, r.2)

end CiscoDevice

/-! ## Shared proof helpers -/

theorem flatten_map_nil {α : Type} (l : List α) :
    (l.map (fun _ => ([] : List String))).flatten = [] := by
  induction l with
  | nil => rfl
  | cons a t ih => simp [ih]

theorem flatten_map_singleton {α : Type} (l : List α) (f : α → String) :
    (l.map (fun a => [f a])).flatten = l.map f := by
  induction l with
  | nil => rfl
  | cons a t ih => simp [ih]

/-- With `dry_run == "on"`, a per-interface pass sends nothing. -/
theorem intfSends_dry_on_nil (osType : String) (intf : TargetDevice.RelayIntf)
    (authRelays : List String) :
    TargetDevice.intfSends osType intf authRelays "on" = [] := by
  unfold TargetDevice.intfSends
  simp [flatten_map_nil]

/-- With `dry_run == "off"`, a per-interface pass is exactly: interface
entry, removals, additions. -/
theorem intfSends_dry_off (osType : String) (intf : TargetDevice.RelayIntf)
    (authRelays : List String) :
    TargetDevice.intfSends osType intf authRelays "off" =
      ["interface " ++ intf.name]
      ++ (TargetDevice.badRelays intf.relays authRelays).map
          (fun badrelay => "no " ++ TargetDevice.relayCmdBase osType ++ badrelay)
      ++ authRelays.map
          (fun goodrelay => TargetDevice.relayCmdBase osType ++ " " ++ goodrelay) := by
  unfold TargetDevice.intfSends
  have hoff : ¬(("off" : String) = "on") := by decide
  simp only [if_neg hoff, flatten_map_singleton]
  cases hb : TargetDevice.badRelays intf.relays authRelays with
  | nil => simp
  | cons x xs => simp

/-! ## C1 — reconciliation set law -/

/-- C1 (counterexample): the claimed law
"removal candidates = C − (A ∪ E)" is false on the code: the engine
takes no excluded set, so an address present only in the (claimed)
excluded set E and in C is still selected for removal.  Concretely for
C = ["10.0.0.1"], A = [], E = ["10.0.0.1"] the address "10.0.0.1" is a
removal candidate although the law says it must not be. -/
theorem c1_removal_set_counterexample :
    ¬ (∀ (C A E : List String) (x : String),
        x ∈ TargetDevice.badRelays C A ↔ (x ∈ C ∧ x ∉ A ∧ x ∉ E)) := by
  intro h
  have h2 := (h ["10.0.0.1"] [] ["10.0.0.1"] "10.0.0.1").mp (by decide)
  exact h2.2.2 (by decide)

/-- C1 (amended): the removal candidates computed by
relayenforce.py:278-281 are exactly `C − A`: an address is selected for
removal iff it is configured and not authorized.  There is no excluded
set in the code, so the claimed law `C − (A ∪ E)` holds precisely when
E is empty. -/
theorem c1_removal_set_eq_configured_minus_authorized :
    ∀ (C A : List String) (x : String),
      x ∈ TargetDevice.badRelays C A ↔ (x ∈ C ∧ x ∉ A) := by
  intro C A x
  simp [TargetDevice.badRelays]

/-! ## C2 — dry-run sends nothing -/

/-- C2: with `dry_run == "on"` the reconciliation run sends zero
commands over the Command Channel, for every OS type, every relay
interface map, every list key and every List Store response: no
configuration-mode entry, no interface entry, no removal, no addition,
no exit/commit. -/
theorem c2_dry_run_sends_no_commands :
    ∀ (osType : String) (relayIntfs : List TargetDevice.RelayIntf)
      (relayListKey listVal : String),
      (TargetDevice.mainRun osType relayIntfs relayListKey listVal "on").sent = [] := by
  intro osType relayIntfs relayListKey listVal
  unfold TargetDevice.mainRun
  split
  · rfl
  · split
    · rfl
    · split
      · rfl
      · simp [intfSends_dry_on_nil, flatten_map_nil]

/-! ## C3 — empty relay map is a successful no-op -/

/-- C3: when the relay-interface mapping is empty the run exits
successfully at relayenforce.py:228-232: zero List Store lookups, zero
commands sent (so no configuration-mode entry), exit code 0 — for
every OS type, list key, List Store response and dry-run setting. -/
theorem c3_empty_relay_map_is_noop :
    ∀ (osType relayListKey listVal dryRun : String),
      TargetDevice.mainRun osType [] relayListKey listVal dryRun =
        { listLookups := 0, sent := [], exitCode := 0 } := by
  intro osType relayListKey listVal dryRun
  rfl

/-! ## C4 — removals first, then unconditional additions -/

/-- C4: with `dry_run == "off"`, each interface pass issues the
interface entry, then one removal per unauthorized address, then one
addition per authorized address — additions unconditionally, so an
authorized address already configured is re-added; and the spec's
scenario (configured ["10.1.1.1","10.2.2.2"] on Vlan10, authorized
"10.2.2.2,10.3.3.3", no excluded) produces exactly: remove 10.1.1.1,
add 10.2.2.2, add 10.3.3.3, in that order, wrapped in the
configuration-mode entry/exit commands. -/
theorem c4_removals_then_unconditional_additions :
    (∀ (osType : String) (intf : TargetDevice.RelayIntf)
        (authRelays : List String),
      TargetDevice.intfSends osType intf authRelays "off" =
        ["interface " ++ intf.name]
        ++ (TargetDevice.badRelays intf.relays authRelays).map
            (fun badrelay =>
              "no " ++ TargetDevice.relayCmdBase osType ++ badrelay)
        ++ authRelays.map
            (fun goodrelay =>
              TargetDevice.relayCmdBase osType ++ " " ++ goodrelay))
    ∧ TargetDevice.mainRun "IOS"
        [{ name := "Vlan10", relays := ["10.1.1.1", "10.2.2.2"] }]
        "row1" "10.2.2.2,10.3.3.3" "off" =
      { listLookups := 1,
        sent := ["configure terminal",
                 "interface Vlan10",
                 "no ip helper-address 10.1.1.1",
                 "ip helper-address  10.2.2.2",
                 "ip helper-address  10.3.3.3",
                 "end",
                 "copy running-config startup-config\r\r"],
        exitCode := 0 } := by
  refine ⟨intfSends_dry_off, by decide⟩

/-! ## C5 — configuration-mode entry/exit and the `in_config_mode` flag -/

/-- C5 (counterexample): the flag does not gate the commands.  Entering
with `in_config_mode` already `true` still sends `enable` and
`configure terminal`, and exiting with `in_config_mode = false` (never
in configuration mode) still sends `end`. -/
theorem c5_config_gating_counterexample :
    (CiscoDevice.enterGlobalConfig { os := "IOS", in_config_mode := true }).2 =
      ["enable", "configure terminal"]
    ∧ (CiscoDevice.enterGlobalConfig { os := "IOS", in_config_mode := true }).2 ≠ []
    ∧ (CiscoDevice.exitGlobalConfig { os := "IOS", in_config_mode := false } false).2 =
      ["end"] := by
  refine ⟨rfl, by decide, rfl⟩

/-- C5 (amended): `enter_global_config` and `exit_global_config` are
unconditional: the commands they send do not depend on the current
`in_config_mode` value; the flag only records the believed mode (set on
entry, cleared on exit).  In particular re-entry re-sends the entry
commands and `end` is sent even when the model was never in
configuration mode. -/
theorem c5_config_entry_exit_unconditional :
    ∀ (dev : CiscoDevice.Dev) (b commitConfig : Bool),
      (CiscoDevice.enterGlobalConfig { dev with in_config_mode := b }).2 =
        ["enable", "configure terminal"]
      ∧ (CiscoDevice.enterGlobalConfig
          { dev with in_config_mode := b }).1.in_config_mode = true
      ∧ "end" ∈ (CiscoDevice.exitGlobalConfig
          { dev with in_config_mode := b } commitConfig).2
      ∧ (CiscoDevice.exitGlobalConfig
          { dev with in_config_mode := b } commitConfig).1.in_config_mode = false := by
  intro dev b commitConfig
  refine ⟨rfl, rfl, ?_, rfl⟩
  simp [CiscoDevice.exitGlobalConfig]

/-! ## C6 — filesystem-index invariant -/

/-- A typical IOS `show file system` response: the default (and
boot-image-hosting) filesystem row is the asterisk-marked `flash:`. -/
def c6fsOut : String :=
  "File Systems:\n\n  Size(b)  Free(b)  Type  Flags  Prefixes\n*  7712882688  6923931648  disk  rw  flash: flash:#\n  33554432  33539946  nvram  rw  nvram:\n"

/-- An IOS device whose boot image lives on `flash`. -/
def c6dev : CiscoDevice.Dev :=
  { os := "IOS", current_system_image_fs := some "flash" }

def c6chan : CiscoDevice.Chan :=
  ⟨fun n => if n = 0 then some c6fsOut else none⟩

set_option maxRecDepth 20000 in
/-- C6 (code evaluated at the failing input): on an IOS device the
filesystem-inventory loop pre-increments its index before the first
store (CiscoDevice.py:504-518), so the resulting mapping is keyed from
1 and has no entry at index 0 — although the default filesystem
`flash` (which hosts the boot image) was identified.  This contradicts
the documented structure (CiscoDevice.py:436-452, "Default fs is
always 0") and the claimed invariant. -/
theorem c6_fs_info_has_no_index_zero :
    ((CiscoDevice.getSystemFsInfo c6dev c6chan).1.toOption.map
        (fun d => d.system_fs_info)) = some [(1, "flash", "6923931648")]
    ∧ ((CiscoDevice.getSystemFsInfo c6dev c6chan).1.toOption.map
        (fun d => List.lookup 0 d.system_fs_info)) = some none
    ∧ ((CiscoDevice.getSystemFsInfo c6dev c6chan).1.toOption.map
        (fun d => d.system_fs)) = some (some "flash") := by
  refine ⟨by decide, by decide, by decide⟩

/-! ## C7 — ASA version parsing -/

/-- C7 (counterexample): on the rebuild-less string "9-12-4" the
pattern `(\d)-?(\d+)-?(\d)-(\d+)?` still requires its final hyphen, so
backtracking re-segments the components: the parse yields maj=9,
min=1, maint=2, rebld=4 — not maj=9, min=12, maint=4 with rebuild
unset as claimed. -/
theorem c7_asa_version_counterexample :
    CiscoDevice.asaParseVersion "9-12-4" =
      { maj := some 9, min := some 1, maint := some 2, rebld := some 4 }
    ∧ CiscoDevice.asaParseVersion "9-12-4" ≠
      { maj := some 9, min := some 12, maint := some 4, rebld := none } := by
  refine ⟨by decide, by decide⟩

/-- C7 (amended): the parser extracts maj/min/maint/rebuild correctly
from both the hyphenated form with a rebuild ("9-12-4-28" → 9,12,4,28)
and the legacy unhyphenated form ("924-5" → 9,2,4,5); but when the
rebuild component is absent the mandatory final hyphen of the pattern
forces re-segmentation: "9-12-4" parses as maj=9, min=1, maint=2,
rebld=4 rather than leaving rebuild unset. -/
theorem c7_asa_version_parse :
    CiscoDevice.asaParseVersion "9-12-4-28" =
      { maj := some 9, min := some 12, maint := some 4, rebld := some 28 }
    ∧ CiscoDevice.asaParseVersion "924-5" =
      { maj := some 9, min := some 2, maint := some 4, rebld := some 5 }
    ∧ CiscoDevice.asaParseVersion "9-12-4" =
      { maj := some 9, min := some 1, maint := some 2, rebld := some 4 } := by
  refine ⟨by decide, by decide, by decide⟩

/-! ## C8 — ordered OS-family classification -/

/-- C8: OS-family classification applies ordered substring tests — the
ASA marker first (it wins even when other markers are also present),
then NX-OS, then the IOS-XE description variants, then generic IOS —
and when none of the family substrings occurs, construction fails with
the `Unable to determine OS` error instead of assigning a default. -/
theorem c8_ordered_os_classification :
    (∀ d, pyContains d "Adaptive Security" = true →
        CiscoDevice.classifyOS d = Except.ok "ASA")
    ∧ (∀ d, pyContains d "Adaptive Security" = false →
        pyContains d "NX-OS" = true →
        CiscoDevice.classifyOS d = Except.ok "NX-OS")
    ∧ (∀ d, pyContains d "Adaptive Security" = false →
        pyContains d "NX-OS" = false →
        (pyContains d "IOSXE" = true ∨ pyContains d "IOS-XE" = true ∨
         pyContains d "IOS XE" = true ∨ pyContains d "LINUX_IOSD" = true ∨
         pyContains d "CAT3K_" = true) →
        CiscoDevice.classifyOS d = Except.ok "IOS-XE")
    ∧ (∀ d, pyContains d "Adaptive Security" = false →
        pyContains d "NX-OS" = false →
        pyContains d "IOSXE" = false → pyContains d "IOS-XE" = false →
        pyContains d "IOS XE" = false → pyContains d "LINUX_IOSD" = false →
        pyContains d "CAT3K_" = false →
        pyContains d "IOS" = true →
        CiscoDevice.classifyOS d = Except.ok "IOS")
    ∧ (∀ d, pyContains d "Adaptive Security" = false →
        pyContains d "NX-OS" = false →
        pyContains d "IOSXE" = false → pyContains d "IOS-XE" = false →
        pyContains d "IOS XE" = false → pyContains d "LINUX_IOSD" = false →
        pyContains d "CAT3K_" = false →
        pyContains d "IOS" = false →
        CiscoDevice.classifyOS d = Except.error "Unable to determine OS") := by
  refine ⟨?_, ?_, ?_, ?_, ?_⟩
  · intro d h1
    simp [CiscoDevice.classifyOS, h1]
  · intro d h1 h2
    simp [CiscoDevice.classifyOS, h1, h2]
  · intro d h1 h2 h3
    simp only [CiscoDevice.classifyOS, h1, h2]
    simp [h3]
  · intro d h1 h2 h3 h4 h5 h6 h7 h8
    simp [CiscoDevice.classifyOS, h1, h2, h3, h4, h5, h6, h7, h8]
  · intro d h1 h2 h3 h4 h5 h6 h7 h8
    simp [CiscoDevice.classifyOS, h1, h2, h3, h4, h5, h6, h7, h8]

/-- C8 (witness): concrete descriptions exercising every part of
`c8_ordered_os_classification`, hypotheses discharged by evaluation. -/
theorem c8_ordered_os_classification_witness :
    CiscoDevice.classifyOS "Cisco Adaptive Security Appliance NX-OS IOS" =
      Except.ok "ASA"
    ∧ CiscoDevice.classifyOS "Cisco NX-OS(tm) n7000" = Except.ok "NX-OS"
    ∧ CiscoDevice.classifyOS "Cisco IOS XE Software" = Except.ok "IOS-XE"
    ∧ CiscoDevice.classifyOS "Cisco IOS Software" = Except.ok "IOS"
    ∧ CiscoDevice.classifyOS "Linux Router v1" =
      Except.error "Unable to determine OS" :=
  ⟨c8_ordered_os_classification.1 _ (by decide),
   c8_ordered_os_classification.2.1 _ (by decide) (by decide),
   c8_ordered_os_classification.2.2.1 _ (by decide) (by decide)
     (Or.inr (Or.inr (Or.inl (by decide)))),
   c8_ordered_os_classification.2.2.2.1 _ (by decide) (by decide) (by decide)
     (by decide) (by decide) (by decide) (by decide) (by decide),
   c8_ordered_os_classification.2.2.2.2 _ (by decide) (by decide) (by decide)
     (by decide) (by decide) (by decide) (by decide) (by decide)⟩

/-! ## C9 — scoped ASA context switch -/

/-- A multi-context ASA seen from its admin context. -/
def c9dev : CiscoDevice.Dev :=
  { os := "ASA", asa_multi_context := true, asa_admin_context := true,
    asa_admin_context_name := some "admin",
    current_system_image_fs := some "disk0" }

/-- A channel whose probe exchange (the second `send_command`) raises. -/
def c9failChan : CiscoDevice.Chan := ⟨fun n => if n = 0 then some "ok" else none⟩

/-- A channel on which every exchange succeeds. -/
def c9okChan : CiscoDevice.Chan := ⟨fun _ => some "x"⟩

/-- C9 (counterexample): the context switch is not guarded by any
try/finally.  When the probe exchange itself raises (after `changeto
system` succeeded), `get_system_image_info` propagates the error
without ever sending the restore command `changeto context admin` —
so the claimed "restored on every exit path including paths where a
command exchange raises" is false on the code. -/
theorem c9_context_restore_counterexample :
    (CiscoDevice.getSystemImageInfo c9dev c9failChan).2 =
      ["changeto system", "show version | include image"]
    ∧ (CiscoDevice.getSystemImageInfo c9dev c9failChan).1 =
      Except.error "channel error"
    ∧ "changeto context admin" ∉ (CiscoDevice.getSystemImageInfo c9dev c9failChan).2 := by
  refine ⟨rfl, rfl, by decide⟩

/-- C9 (amended): on a multi-context ASA probed from the admin context,
whenever the command exchanges up to and including the restore succeed,
both `get_system_image_info` and `get_system_fs_info` send `changeto
system`, then the single probe command, then `changeto context <name>`
— and the restore precedes every later action, so every parse-failure
exit path (all parsing happens after the restore) leaves the caller's
context restored; only a channel failure on the switch or probe
exchange itself can skip the restore. -/
theorem c9_context_restore_on_parse_paths
    (dev : CiscoDevice.Dev) (ch : CiscoDevice.Chan)
    (nm f r0 r1 r2 : String)
    (hos : dev.os = "ASA") (hm : dev.asa_multi_context = true)
    (ha : dev.asa_admin_context = true)
    (hn : dev.asa_admin_context_name = some nm)
    (h0 : ch.resp 0 = some r0) (h1 : ch.resp 1 = some r1)
    (h2 : ch.resp 2 = some r2)
    (hf : dev.current_system_image_fs = some f) (hne : ¬ f = "") :
    (∃ t, (CiscoDevice.getSystemImageInfo dev ch).2 =
      ["changeto system", "show version | include image",
       "changeto context " ++ nm] ++ t)
    ∧ (CiscoDevice.getSystemFsInfo dev ch).2 =
      ["changeto system", "show file system", "changeto context " ++ nm] := by
  constructor
  · simp only [CiscoDevice.getSystemImageInfo, CiscoDevice.probeCmdGii,
      CiscoDevice.restoreCmd, pyStrOpt, hos, hm, ha, hn, h0, h1, h2]
    simp
  · simp only [CiscoDevice.getSystemFsInfo, CiscoDevice.restoreCmd,
      pyStrOpt, hos, hm, ha, hn, h0, h1, h2, hf]
    simp [hne]

/-- C9 (witness): the amended theorem applied to the concrete admin
device and an all-successful channel. -/
theorem c9_context_restore_witness :
    (∃ t, (CiscoDevice.getSystemImageInfo c9dev c9okChan).2 =
      ["changeto system", "show version | include image",
       "changeto context " ++ "admin"] ++ t)
    ∧ (CiscoDevice.getSystemFsInfo c9dev c9okChan).2 =
      ["changeto system", "show file system", "changeto context " ++ "admin"] :=
  c9_context_restore_on_parse_paths c9dev c9okChan "admin" "disk0" "x" "x" "x"
    rfl rfl rfl rfl rfl rfl rfl rfl (by decide)

/-! ## C10 — empty active-interface list -/

/-- C10: `get_relay_interfaces` on a device model whose
active-interface list is empty — also when the interface scan
legitimately found zero active interfaces — raises
`TypeError("active_intfs is not intialized")` before sending any
command, instead of completing with an empty relay map; such a device
therefore never reaches the graceful early-exit no-op path. -/
theorem c10_empty_interfaces_raises
    (dev : CiscoDevice.Dev) (ch : CiscoDevice.Chan)
    (h : dev.active_intfs = []) :
    CiscoDevice.getRelayInterfaces dev ch =
      (Except.error "TypeError: active_intfs is not intialized", []) := by
  simp [CiscoDevice.getRelayInterfaces, h]

/-- A device whose interface scan found zero active interfaces. -/
def c10dev : CiscoDevice.Dev := { os := "IOS", active_intfs := [] }

def c10chan : CiscoDevice.Chan := ⟨fun _ => some "x"⟩

/-- C10 (witness): the theorem applied to a concrete device with an
empty active-interface list. -/
theorem c10_empty_interfaces_raises_witness :
    CiscoDevice.getRelayInterfaces c10dev c10chan =
      (Except.error "TypeError: active_intfs is not intialized", []) :=
  c10_empty_interfaces_raises c10dev c10chan rfl
